import Mathlib

/-! Shallow embedding of the annotation review engine of the Genome-Project
repository (streamlit_app.py). Worksheet values are lists of rows of string
cells, the shape returned by the remote tabular store. Session state keys are
modelled as Option fields, none standing for an absent key. -/

abbrev Row := List String

abbrev Sheet := List Row

/-- Outcome reported by the persistence writer, mirroring the st.info,
st.success, st.warning and st.error notices inside
GoogleSheetHandler.add_new_worksheet_and_write. -/
inductive SaveResult where
  | noNew
  | appended (n : Nat)
  | createdAndWrote
  | creationError
  | appendError
deriving DecidableEq

/-- A pending single-row or multi-row DataFrame batch: the column names and,
for each data row, its PMID cell as a string together with the full row
values. -/
structure Batch where
  columns : Row
  rows : List (String × Row)
deriving DecidableEq

/-- Cell values of the PMID column of a worksheet body: rows long enough to
reach the PMID column index contribute their cell there (streamlit_app.py
line 51). -/
def existingPmids (header : Row) (rows : List Row) : List String :=
  let idx := header.indexOf "PMID"
  (rows.filter (fun r => decide (idx < r.length))).map (fun r => r.getD idx "")

/-- Number of data rows of a worksheet whose PMID cell equals p. -/
def countPmid (values : Sheet) (p : String) : Nat :=
  match values with
  | [] => 0
  | header :: rows => (existingPmids header rows).count p

/-- Creation path of add_new_worksheet_and_write (lines 69 to 101): a
batchUpdate addSheet request against the remote store. The remote store
rejects an addSheet request whose title already exists, so creation fails
whenever the worksheet is present (the failure is caught at line 89 and
reported via st.error, and nothing is written); on a fresh title the sheet is
created and the header row plus all batch rows are written. -/
def creationPath (store : Option Sheet) (batch : Batch) :
    Option Sheet × SaveResult :=
  match store with
  | some values => (some values, .creationError)
  | none => (some (batch.columns :: batch.rows.map Prod.snd), .createdAndWrote)

/-- GoogleSheetHandler.add_new_worksheet_and_write (lines 37 to 101). The
readFails flag models a transport exception on the initial values read and
appendFails one on the values append; either exception is caught inside the
method (warning at line 67). A read failure, an empty value range, or a header
without the PMID column leaves worksheet_exists False and falls through to the
creation path. -/
def add_new_worksheet_and_write (store : Option Sheet)
    (readFails appendFails : Bool) (batch : Batch) : Option Sheet × SaveResult :=
  match store, readFails with
  | some values, false =>
    match values with
    | header :: rows =>
      if "PMID" ∈ header then
        let existing := existingPmids header rows
        let newRows := batch.rows.filter (fun b => decide (b.1 ∉ existing))
        if newRows = [] then (some (header :: rows), .noNew)
        else if appendFails then (some (header :: rows), .appendError)
        else (some ((header :: rows) ++ newRows.map Prod.snd),
              .appended newRows.length)
      else creationPath (some (header :: rows)) batch
    | [] => creationPath (some []) batch
  | some values, true => creationPath (some values) batch
  | none, _ => creationPath none batch

/-- The store after n retried save attempts of the same batch, each attempt
rereading current ledger membership before appending. -/
def iterateSave (batch : Batch) (n : Nat) (store : Option Sheet) : Option Sheet :=
  (fun st => (add_new_worksheet_and_write st false false batch).1)^[n] store

/-- GoogleSheetHandler.get_validated_pmids (lines 103 to 116): none models a
read exception (caught at line 114, warning, empty set); an empty worksheet or
a header without the PMID column also yields the empty set. -/
def get_validated_pmids (readResult : Option Sheet) : Finset String :=
  match readResult with
  | none => ∅
  | some [] => ∅
  | some (header :: rows) =>
    if "PMID" ∈ header then (existingPmids header rows).toFinset else ∅

/-- The displayed record, after the per-column get defaults at lines 264
to 273 of the script body. -/
structure Record where
  pmid : String
  title : String
  abstract : String
  original_hnh_class : String
  original_hnh_reason : String
  original_type : String
  original_type_reason : String
deriving DecidableEq

/-- Streamlit session state fields used by the review engine; none models an
absent key. -/
structure SessionState where
  current_record_index : Int
  hnh_reason_text : Option String
  hnh_used_sentences : Option (List String)
  type_reason_text : Option String
  type_used_sentences : Option (List String)
  non_human_subcategories : Option (List String)
  navigate_to_pmid : Option String
deriving DecidableEq

/-- Values of the two action radio widgets and the two new-classification
selectbox widgets. -/
structure WidgetState where
  hnh_action : String
  hnh_new_class : String
  type_action : String
  type_new_class : String
deriving DecidableEq

/-- Previous button handler (lines 232 to 245): decrement the cursor and
delete the five transient keys. -/
def previousClick (s : SessionState) : SessionState :=
  { s with current_record_index := s.current_record_index - 1,
           hnh_reason_text := none, hnh_used_sentences := none,
           type_reason_text := none, type_used_sentences := none,
           non_human_subcategories := none }

/-- Next button handler (lines 247 to 260): increment the cursor and delete
the five transient keys. -/
def nextClick (s : SessionState) : SessionState :=
  { s with current_record_index := s.current_record_index + 1,
           hnh_reason_text := none, hnh_used_sentences := none,
           type_reason_text := none, type_used_sentences := none,
           non_human_subcategories := none }

/-- PMID navigation handler (lines 471 to 482); pmids is the PMID column of
the full DataFrame as strings. Only the cursor and the navigation flag are
written. -/
def navigate_to_pmid_handler (pmids : List String) (target : String)
    (s : SessionState) : SessionState :=
  match pmids.findIdx? (· == target) with
  | some i => { s with current_record_index := (i : Int), navigate_to_pmid := none }
  | none => { s with navigate_to_pmid := none }

/-- Sentence terminal punctuation of the split pattern at line 288. -/
def isTerm (c : Char) : Bool := c == '.' || c == '!' || c == '?'

/-- Scanner for the split on terminal punctuation followed by one or more
whitespace characters: the Bool is true while consuming a separator
whitespace run, acc holds the current fragment reversed. -/
def rawSplitAux : Bool → List Char → List Char → List (List Char)
  | _, [], acc => [acc.reverse]
  | false, c :: rest, acc =>
    if c.isWhitespace && (match acc with | p :: _ => isTerm p | [] => false) then
      acc.reverse :: rawSplitAux true rest []
    else rawSplitAux false rest (c :: acc)
  | true, c :: rest, acc =>
    if c.isWhitespace then rawSplitAux true rest acc
    else rawSplitAux false rest (c :: acc)

/-- Raw fragments produced by the split at line 288. -/
def splitSentencesRaw (text : String) : List String :=
  (rawSplitAux false text.data []).map (fun l => String.mk l)

/-- Python str.strip with no arguments: drop leading and trailing whitespace
characters. -/
def pyStrip (s : String) : String :=
  String.mk (((s.data.dropWhile Char.isWhitespace).reverse.dropWhile
    Char.isWhitespace).reverse)

/-- Line 289: strip each fragment and keep only the non-empty results. -/
def abstract_sentences (text : String) : List String :=
  ((splitSentencesRaw text).map pyStrip).filter (fun s => decide (s ≠ ""))

/-- Shared body of the two add-sentence button handlers (lines 357 to 364 and
396 to 403): guard on a truthy selection that is not yet in the used set, then
insert it and newline-join it into the draft reason. -/
def addSentenceCore (sel : String) (used : List String) (draft : String) :
    List String × String :=
  if sel ≠ "" ∧ sel ∉ used then
    (sel :: used, if draft = "" then sel else draft ++ "\n" ++ sel)
  else (used, draft)

/-- The add_hnh_sentence button handler on session state; both keys are
initialized before the handler can run (lines 292 to 295 and 354 to 355). -/
def add_hnh_sentence (sel : String) (s : SessionState) : SessionState :=
  { s with
    hnh_used_sentences := some (addSentenceCore sel
      (s.hnh_used_sentences.getD []) (s.hnh_reason_text.getD "")).1,
    hnh_reason_text := some (addSentenceCore sel
      (s.hnh_used_sentences.getD []) (s.hnh_reason_text.getD "")).2 }

/-- The add_type_sentence button handler on session state (lines 396
to 403). -/
def add_type_sentence (sel : String) (s : SessionState) : SessionState :=
  { s with
    type_used_sentences := some (addSentenceCore sel
      (s.type_used_sentences.getD []) (s.type_reason_text.getD "")).1,
    type_reason_text := some (addSentenceCore sel
      (s.type_used_sentences.getD []) (s.type_reason_text.getD "")).2 }

/-- Axis A section of the script body (lines 331 to 374): the change branch
initializes the draft key if absent, the keep branch deletes the axis A draft
and used-sentence keys. -/
def hnhSection (w : WidgetState) (s : SessionState) : SessionState :=
  if w.hnh_action = "Change Classification" then
    { s with hnh_reason_text := some (s.hnh_reason_text.getD "") }
  else
    { s with hnh_reason_text := none, hnh_used_sentences := none }

/-- Axis B section of the script body (lines 379 to 413), symmetric to the
axis A section. -/
def typeSection (w : WidgetState) (s : SessionState) : SessionState :=
  if w.type_action = "Change Classification" then
    { s with type_reason_text := some (s.type_reason_text.getD "") }
  else
    { s with type_reason_text := none, type_used_sentences := none }

/-- Judgment row assembled by the Save and Next handler (lines 416 to 441). -/
structure Response where
  user : String
  timestamp : String
  pmid : String
  title : String
  abstract : String
  original_hnh_class : String
  original_hnh_reason : String
  original_type : String
  original_type_reason : String
  hnh_action : String
  hnh_new_classification : String
  hnh_new_reason : String
  type_action : String
  type_new_classification : String
  type_new_reason : String
  non_human_subcategories : Option String
deriving DecidableEq

/-- Response dict construction at lines 417 to 441, evaluated on the session
state as it stands when the save button handler runs. -/
def buildResponse (user ts : String) (r : Record) (w : WidgetState)
    (s : SessionState) : Response :=
  let hnh_new := if w.hnh_action = "Change Classification" then w.hnh_new_class
                 else r.original_hnh_class
  let type_new := if w.type_action = "Change Classification" then w.type_new_class
                  else r.original_type
  let hnh_reason_to_save :=
    if w.hnh_action = "Change Classification" then
      s.hnh_reason_text.getD r.original_hnh_reason
    else r.original_hnh_reason
  let type_reason_to_save :=
    if w.type_action = "Change Classification" then
      s.type_reason_text.getD r.original_type_reason
    else r.original_type_reason
  { user := user, timestamp := ts, pmid := r.pmid, title := r.title,
    abstract := r.abstract,
    original_hnh_class := r.original_hnh_class,
    original_hnh_reason := r.original_hnh_reason,
    original_type := r.original_type,
    original_type_reason := r.original_type_reason,
    hnh_action := w.hnh_action,
    hnh_new_classification := hnh_new,
    hnh_new_reason := hnh_reason_to_save,
    type_action := w.type_action,
    type_new_classification := type_new,
    type_new_reason := type_reason_to_save,
    non_human_subcategories :=
      if hnh_new = "Non-Human" then
        s.non_human_subcategories.map (String.intercalate ", ")
      else none }

/-- Column names of the single-row response DataFrame, in dict insertion
order; the subcategory column is present only when that key was added. -/
def respColumns (resp : Response) : Row :=
  ["user", "timestamp", "PMID", "Title", "Abstract",
   "original_Human_NonHuman_Classification", "original_Human_NonHuman_Reason",
   "original_Dataset_Type", "original_Dataset_Type_Reason",
   "hnh_action", "hnh_new_classification", "hnh_new_reason",
   "type_action", "type_new_classification", "type_new_reason"] ++
  (match resp.non_human_subcategories with
   | some _ => ["non_human_subcategories"]
   | none => [])

/-- Cell values of the single response row, in dict insertion order. -/
def respRow (resp : Response) : Row :=
  [resp.user, resp.timestamp, resp.pmid, resp.title, resp.abstract,
   resp.original_hnh_class, resp.original_hnh_reason,
   resp.original_type, resp.original_type_reason,
   resp.hnh_action, resp.hnh_new_classification, resp.hnh_new_reason,
   resp.type_action, resp.type_new_classification, resp.type_new_reason] ++
  (match resp.non_human_subcategories with | some v => [v] | none => [])

/-- The one-row DataFrame built at line 443 from the response dict. -/
def respBatch (resp : Response) : Batch :=
  { columns := respColumns resp, rows := [(resp.pmid, respRow resp)] }

/-- Response as assembled inside Save and Next, after the two axis sections
have already run on the session earlier in the same script run. -/
def savedResponse (user ts : String) (r : Record) (w : WidgetState)
    (s : SessionState) : Response :=
  buildResponse user ts r w (typeSection w (hnhSection w s))

/-- Save and Next handler (lines 416 to 465): assemble the response, call the
persistence writer, advance and clamp the cursor, delete the five transient
keys, in that order and without inspecting the writer outcome. -/
def saveAndNext (user ts : String) (total : Nat) (r : Record) (w : WidgetState)
    (store : Option Sheet) (readFails appendFails : Bool) (s : SessionState) :
    SessionState × Option Sheet × SaveResult :=
  let s1 := typeSection w (hnhSection w s)
  let resp := buildResponse user ts r w s1
  let out := add_new_worksheet_and_write store readFails appendFails (respBatch resp)
  let i := s1.current_record_index + 1
  let j := if (total : Int) ≤ i then (if 0 < total then (total : Int) - 1 else 0) else i
  ({ s1 with current_record_index := j,
             hnh_reason_text := none, hnh_used_sentences := none,
             type_reason_text := none, type_used_sentences := none,
             non_human_subcategories := none },
   out.1, out.2)

/-- Progress metrics at lines 204 to 217: total records, completed count and
remaining count as displayed. -/
def progressCounts (dataset : List Record) (readResult : Option Sheet) :
    Nat × Nat × Int :=
  let validated := get_validated_pmids readResult
  (dataset.length, validated.card,
   (dataset.length : Int) - (validated.card : Int))

/-- Modelled from the spec: completed as the cardinality of the intersection
of the ledger membership with the dataset record ids (spec section 4.4), for
comparison with the implemented count. -/
def completed_spec (dataset : List Record) (readResult : Option Sheet) : Nat :=
  (get_validated_pmids readResult ∩ (dataset.map Record.pmid).toFinset).card

theorem mem_abstract_sentences (text s : String)
    (h : s ∈ abstract_sentences text) :
    s ≠ "" ∧ ∃ t ∈ splitSentencesRaw text, s = pyStrip t := by
  unfold abstract_sentences at h
  rw [List.mem_filter] at h
  obtain ⟨hmap, hne⟩ := h
  rw [List.mem_map] at hmap
  obtain ⟨t, ht, rfl⟩ := hmap
  exact ⟨by simpa using hne, t, ht, rfl⟩

theorem addSentenceCore_mem (sel : String) (u : List String) (d : String)
    (h : sel ∈ u) : addSentenceCore sel u d = (u, d) := by
  unfold addSentenceCore
  rw [if_neg (fun hc => hc.2 h)]

theorem addSentenceCore_not_mem (sel : String) (u : List String) (d : String)
    (hne : sel ≠ "") (h : sel ∉ u) :
    addSentenceCore sel u d = (sel :: u, if d = "" then sel else d ++ "\n" ++ sel) := by
  unfold addSentenceCore
  rw [if_pos ⟨hne, h⟩]

theorem addSentenceCore_empty (u : List String) (d : String) :
    addSentenceCore "" u d = (u, d) := by
  unfold addSentenceCore
  rw [if_neg (fun hc => hc.1 rfl)]

theorem addSentenceCore_stable (sel : String) (u : List String) (d : String) :
    addSentenceCore sel (addSentenceCore sel u d).1 (addSentenceCore sel u d).2
      = addSentenceCore sel u d := by
  by_cases he : sel = ""
  · subst he
    rw [addSentenceCore_empty, addSentenceCore_empty]
  · by_cases hm : sel ∈ u
    · rw [addSentenceCore_mem sel u d hm, addSentenceCore_mem sel u d hm]
    · rw [addSentenceCore_not_mem sel u d he hm]
      exact addSentenceCore_mem sel _ _ (List.mem_cons_self sel u)

theorem add_hnh_sentence_idem (sel : String) (s : SessionState) :
    add_hnh_sentence sel (add_hnh_sentence sel s) = add_hnh_sentence sel s := by
  cases s with
  | mk i a b c d e f =>
    simp only [add_hnh_sentence, Option.getD_some]
    rw [addSentenceCore_stable]

theorem add_type_sentence_idem (sel : String) (s : SessionState) :
    add_type_sentence sel (add_type_sentence sel s) = add_type_sentence sel s := by
  cases s with
  | mk i a b c d e f =>
    simp only [add_type_sentence, Option.getD_some]
    rw [addSentenceCore_stable]

/-- Claim C7: the sentence splitter is a pure function of the abstract text;
on the input about cats, fish and sleep it returns exactly the three expected
fragments with terminal punctuation retained, and in general every fragment it
returns is non-empty and is the stripped form of a raw split fragment. -/
theorem C7_sentence_split :
    abstract_sentences "Cats are mammals. Do fish sleep? Yes they do!"
      = ["Cats are mammals.", "Do fish sleep?", "Yes they do!"] ∧
    ∀ text s, s ∈ abstract_sentences text →
      s ≠ "" ∧ ∃ t ∈ splitSentencesRaw text, s = pyStrip t :=
  ⟨by decide, fun text s h => mem_abstract_sentences text s h⟩

theorem C7_sentence_split_witness :
    "Cats are mammals." ∈
        abstract_sentences "Cats are mammals. Do fish sleep? Yes they do!" ∧
    ("Cats are mammals." ≠ "" ∧
      ∃ t ∈ splitSentencesRaw "Cats are mammals. Do fish sleep? Yes they do!",
        "Cats are mammals." = pyStrip t) :=
  ⟨by decide, C7_sentence_split.2 _ _ (by decide)⟩

/-- Claim C9: adding a sentence to an axis reason is a no-op when the sentence
is already in that axis used set, otherwise inserts it into the used set and
newline-joins it into the draft; on both axes applying the handler twice with
the same sentence equals applying it once. -/
theorem C9_add_sentence (text sel : String)
    (hsel : sel ∈ abstract_sentences text)
    (used : List String) (draft : String) (s : SessionState) :
    (sel ∈ used → addSentenceCore sel used draft = (used, draft)) ∧
    (sel ∉ used → addSentenceCore sel used draft
        = (sel :: used, if draft = "" then sel else draft ++ "\n" ++ sel)) ∧
    add_hnh_sentence sel (add_hnh_sentence sel s) = add_hnh_sentence sel s ∧
    add_type_sentence sel (add_type_sentence sel s) = add_type_sentence sel s :=
  ⟨fun hm => addSentenceCore_mem sel used draft hm,
   fun hn => addSentenceCore_not_mem sel used draft
     (mem_abstract_sentences text sel hsel).1 hn,
   add_hnh_sentence_idem sel s,
   add_type_sentence_idem sel s⟩

theorem C9_add_sentence_witness :
    "Do fish sleep?" ∈
        abstract_sentences "Cats are mammals. Do fish sleep? Yes they do!" ∧
    "Do fish sleep?" ∉ (["Cats are mammals."] : List String) ∧
    addSentenceCore "Do fish sleep?" ["Cats are mammals."] "Cats are mammals."
      = (["Do fish sleep?", "Cats are mammals."],
         if ("Cats are mammals." : String) = "" then "Do fish sleep?"
         else "Cats are mammals." ++ "\n" ++ "Do fish sleep?") :=
  ⟨by decide, by decide,
   (C9_add_sentence "Cats are mammals. Do fish sleep? Yes they do!"
      "Do fish sleep?" (by decide) ["Cats are mammals."] "Cats are mammals."
      ⟨0, none, none, none, none, none, none⟩).2.1 (by decide)⟩

/-- Claim C2 counterexample: a successful JumpTo (the cursor moves to the
matching index) leaves the per-axis used-sentence sets, draft reasons and the
subcategory selection exactly as they were, so the claim that every one of
Previous, Next and JumpTo clears them is false at this input. -/
theorem C2_counterexample :
    (navigate_to_pmid_handler ["41", "42"] "42"
        ⟨0, some "draft", some ["Cats are mammals."], some "d2", some ["X."],
         some ["Plants"], some "42"⟩).current_record_index = 1 ∧
    (navigate_to_pmid_handler ["41", "42"] "42"
        ⟨0, some "draft", some ["Cats are mammals."], some "d2", some ["X."],
         some ["Plants"], some "42"⟩).hnh_used_sentences
      = some ["Cats are mammals."] ∧
    (navigate_to_pmid_handler ["41", "42"] "42"
        ⟨0, some "draft", some ["Cats are mammals."], some "d2", some ["X."],
         some ["Plants"], some "42"⟩).hnh_reason_text = some "draft" ∧
    (navigate_to_pmid_handler ["41", "42"] "42"
        ⟨0, some "draft", some ["Cats are mammals."], some "d2", some ["X."],
         some ["Plants"], some "42"⟩).non_human_subcategories
      = some ["Plants"] := by decide

/-- Claim C2 as amended: the Previous and Next transitions clear all per-axis
used-sentence sets, draft reasons and the subcategory selection, while JumpTo
changes only the cursor and the navigation flag and leaves all of those fields
with their prior contents. -/
theorem C2_navigation_reset (s : SessionState) (pmids : List String)
    (target : String) :
    ((previousClick s).hnh_reason_text = none ∧
     (previousClick s).hnh_used_sentences = none ∧
     (previousClick s).type_reason_text = none ∧
     (previousClick s).type_used_sentences = none ∧
     (previousClick s).non_human_subcategories = none) ∧
    ((nextClick s).hnh_reason_text = none ∧
     (nextClick s).hnh_used_sentences = none ∧
     (nextClick s).type_reason_text = none ∧
     (nextClick s).type_used_sentences = none ∧
     (nextClick s).non_human_subcategories = none) ∧
    ((navigate_to_pmid_handler pmids target s).hnh_reason_text
        = s.hnh_reason_text ∧
     (navigate_to_pmid_handler pmids target s).hnh_used_sentences
        = s.hnh_used_sentences ∧
     (navigate_to_pmid_handler pmids target s).type_reason_text
        = s.type_reason_text ∧
     (navigate_to_pmid_handler pmids target s).type_used_sentences
        = s.type_used_sentences ∧
     (navigate_to_pmid_handler pmids target s).non_human_subcategories
        = s.non_human_subcategories) := by
  refine ⟨⟨rfl, rfl, rfl, rfl, rfl⟩, ⟨rfl, rfl, rfl, rfl, rfl⟩, ?_⟩
  cases h : pmids.findIdx? (· == target) <;>
    simp [navigate_to_pmid_handler, h]

/-- Claim C10: reading the set of already judged record identities is total at
its interface: a read failure, an empty worksheet, and a header lacking the
PMID column all yield the empty set, and the progress computation consuming it
always reports remaining equal to total minus completed. -/
theorem C10_get_validated_pmids_total :
    get_validated_pmids none = ∅ ∧
    get_validated_pmids (some []) = ∅ ∧
    (∀ header rows, "PMID" ∉ header →
      get_validated_pmids (some (header :: rows)) = ∅) ∧
    ∀ dataset rr, (progressCounts dataset rr).2.2
        = ((progressCounts dataset rr).1 : Int)
          - ((progressCounts dataset rr).2.1 : Int) := by
  refine ⟨rfl, rfl, fun header rows h => ?_, fun dataset rr => rfl⟩
  simp [get_validated_pmids, h]

theorem C10_get_validated_pmids_total_witness :
    ("PMID" ∉ (["Identifier"] : Row)) ∧
    get_validated_pmids (some [["Identifier"], ["9"]]) = ∅ ∧
    (progressCounts [] (some [["Identifier"], ["9"]])).2.2
      = ((progressCounts [] (some [["Identifier"], ["9"]])).1 : Int)
        - ((progressCounts [] (some [["Identifier"], ["9"]])).2.1 : Int) :=
  ⟨by decide,
   C10_get_validated_pmids_total.2.2.1 ["Identifier"] [["9"]] (by decide),
   C10_get_validated_pmids_total.2.2.2 [] (some [["Identifier"], ["9"]])⟩

theorem sections_subcats (w : WidgetState) (s : SessionState) :
    (typeSection w (hnhSection w s)).non_human_subcategories
      = s.non_human_subcategories := by
  unfold typeSection hnhSection
  split <;> split <;> rfl

theorem sections_index (w : WidgetState) (s : SessionState) :
    (typeSection w (hnhSection w s)).current_record_index
      = s.current_record_index := by
  unfold typeSection hnhSection
  split <;> split <;> rfl

theorem savedResponse_hnh_new (user ts : String) (r : Record) (w : WidgetState)
    (s : SessionState) :
    (savedResponse user ts r w s).hnh_new_classification
      = if w.hnh_action = "Change Classification" then w.hnh_new_class
        else r.original_hnh_class := rfl

theorem savedResponse_subcats (user ts : String) (r : Record) (w : WidgetState)
    (s : SessionState) :
    (savedResponse user ts r w s).non_human_subcategories
      = if (if w.hnh_action = "Change Classification" then w.hnh_new_class
            else r.original_hnh_class) = "Non-Human"
        then s.non_human_subcategories.map (String.intercalate ", ")
        else none := by
  have h : (savedResponse user ts r w s).non_human_subcategories
      = if (if w.hnh_action = "Change Classification" then w.hnh_new_class
            else r.original_hnh_class) = "Non-Human"
        then (typeSection w (hnhSection w s)).non_human_subcategories.map
          (String.intercalate ", ")
        else none := rfl
  rw [h, sections_subcats]

/-- Claim C4: when the axis action is Keep Original, the saved judgment
carries exactly the original classification and the original reason of that
axis, for any session state contents, on both axes. -/
theorem C4_keep_original_identity (user ts : String) (r : Record)
    (w : WidgetState) (s : SessionState) :
    (w.hnh_action = "Keep Original" →
      (savedResponse user ts r w s).hnh_new_classification
          = r.original_hnh_class ∧
      (savedResponse user ts r w s).hnh_new_reason = r.original_hnh_reason) ∧
    (w.type_action = "Keep Original" →
      (savedResponse user ts r w s).type_new_classification
          = r.original_type ∧
      (savedResponse user ts r w s).type_new_reason
          = r.original_type_reason) := by
  constructor
  · intro h
    have hne : ¬ w.hnh_action = "Change Classification" := by
      rw [h]; decide
    constructor
    · rw [savedResponse_hnh_new, if_neg hne]
    · show (if w.hnh_action = "Change Classification" then
          (typeSection w (hnhSection w s)).hnh_reason_text.getD
            r.original_hnh_reason
        else r.original_hnh_reason) = r.original_hnh_reason
      rw [if_neg hne]
  · intro h
    have hne : ¬ w.type_action = "Change Classification" := by
      rw [h]; decide
    constructor
    · show (if w.type_action = "Change Classification" then w.type_new_class
          else r.original_type) = r.original_type
      rw [if_neg hne]
    · show (if w.type_action = "Change Classification" then
          (typeSection w (hnhSection w s)).type_reason_text.getD
            r.original_type_reason
        else r.original_type_reason) = r.original_type_reason
      rw [if_neg hne]

theorem C4_keep_original_identity_witness :
    (savedResponse "u" "t" ⟨"7", "ti", "ab", "Non-Human", "origHreason",
        "Mixed", "origTreason"⟩
      ⟨"Keep Original", "Human", "Keep Original", "Original"⟩
      ⟨0, some "stale", some ["X."], some "staleT", some ["Y."],
       some ["Plants"], none⟩).hnh_new_classification = "Non-Human" ∧
    (savedResponse "u" "t" ⟨"7", "ti", "ab", "Non-Human", "origHreason",
        "Mixed", "origTreason"⟩
      ⟨"Keep Original", "Human", "Keep Original", "Original"⟩
      ⟨0, some "stale", some ["X."], some "staleT", some ["Y."],
       some ["Plants"], none⟩).hnh_new_reason = "origHreason" ∧
    (savedResponse "u" "t" ⟨"7", "ti", "ab", "Non-Human", "origHreason",
        "Mixed", "origTreason"⟩
      ⟨"Keep Original", "Human", "Keep Original", "Original"⟩
      ⟨0, some "stale", some ["X."], some "staleT", some ["Y."],
       some ["Plants"], none⟩).type_new_classification = "Mixed" ∧
    (savedResponse "u" "t" ⟨"7", "ti", "ab", "Non-Human", "origHreason",
        "Mixed", "origTreason"⟩
      ⟨"Keep Original", "Human", "Keep Original", "Original"⟩
      ⟨0, some "stale", some ["X."], some "staleT", some ["Y."],
       some ["Plants"], none⟩).type_new_reason = "origTreason" := by
  have h := C4_keep_original_identity "u" "t"
    ⟨"7", "ti", "ab", "Non-Human", "origHreason", "Mixed", "origTreason"⟩
    ⟨"Keep Original", "Human", "Keep Original", "Original"⟩
    ⟨0, some "stale", some ["X."], some "staleT", some ["Y."],
     some ["Plants"], none⟩
  exact ⟨(h.1 rfl).1, (h.1 rfl).2, (h.2 rfl).1, (h.2 rfl).2⟩

/-- Claim C5 counterexample: with Keep Original on a record whose original
axis A classification is Non-Human and no subcategory key in the session, the
effective new value of the saved judgment is Non-Human and yet the
subcategories field is absent, so the claimed if-and-only-if is false at this
input. -/
theorem C5_counterexample :
    (savedResponse "u" "t" ⟨"7", "ti", "ab", "Non-Human", "hr", "Original",
        "tr"⟩
      ⟨"Keep Original", "Human", "Keep Original", "Original"⟩
      ⟨0, none, none, none, none, none, none⟩).hnh_new_classification
      = "Non-Human" ∧
    (savedResponse "u" "t" ⟨"7", "ti", "ab", "Non-Human", "hr", "Original",
        "tr"⟩
      ⟨"Keep Original", "Human", "Keep Original", "Original"⟩
      ⟨0, none, none, none, none, none, none⟩).non_human_subcategories
      = none := by decide

/-- Claim C5 as amended: the saved judgment carries the subcategories field if
and only if the effective axis A new value is Non-Human and the session holds
a subcategory selection key; in particular when the effective new value is
Human or Unclear the field is always absent, even if a prior Non-Human
interaction left residual subcategory state. -/
theorem C5_subcategories_presence (user ts : String) (r : Record)
    (w : WidgetState) (s : SessionState) :
    ((savedResponse user ts r w s).non_human_subcategories.isSome = true ↔
      ((savedResponse user ts r w s).hnh_new_classification = "Non-Human" ∧
       s.non_human_subcategories.isSome = true)) ∧
    ((savedResponse user ts r w s).hnh_new_classification = "Human" ∨
     (savedResponse user ts r w s).hnh_new_classification = "Unclear" →
      (savedResponse user ts r w s).non_human_subcategories = none) := by
  rw [savedResponse_subcats, savedResponse_hnh_new]
  constructor
  · by_cases hNH : (if w.hnh_action = "Change Classification"
        then w.hnh_new_class else r.original_hnh_class) = "Non-Human"
    · cases hso : s.non_human_subcategories <;> simp [hNH, hso]
    · simp [hNH]
  · intro h
    have hne : ¬ (if w.hnh_action = "Change Classification"
        then w.hnh_new_class else r.original_hnh_class) = "Non-Human" := by
      rcases h with h | h <;>
        exact fun hc => by rw [h] at hc; exact absurd hc (by decide)
    rw [if_neg hne]

theorem C5_subcategories_presence_witness :
    ((savedResponse "u" "t" ⟨"7", "ti", "ab", "Human", "hr", "Original", "tr"⟩
        ⟨"Keep Original", "Human", "Keep Original", "Original"⟩
        ⟨0, none, none, none, none, some ["Plants"], none⟩).hnh_new_classification
      = "Human") ∧
    (savedResponse "u" "t" ⟨"7", "ti", "ab", "Human", "hr", "Original", "tr"⟩
        ⟨"Keep Original", "Human", "Keep Original", "Original"⟩
        ⟨0, none, none, none, none, some ["Plants"], none⟩).non_human_subcategories
      = none :=
  ⟨by decide,
   (C5_subcategories_presence "u" "t"
      ⟨"7", "ti", "ab", "Human", "hr", "Original", "tr"⟩
      ⟨"Keep Original", "Human", "Keep Original", "Original"⟩
      ⟨0, none, none, none, none, some ["Plants"], none⟩).2
     (Or.inl (by decide))⟩

/-- Claim C3 counterexample: a save whose append to the remote store fails
with a caught warning still reports the failure, yet the session state drafts
are cleared and the cursor is advanced, so the claim that failed saves leave
drafts intact and the cursor unchanged is false at this input. -/
theorem C3_counterexample :
    ((saveAndNext "u" "t" 3 ⟨"7", "ti", "ab", "Human", "hr", "Original", "tr"⟩
        ⟨"Change Classification", "Human", "Change Classification", "Used"⟩
        (some [["PMID"]]) false true
        ⟨0, some "draft", some ["S."], some "d2", some ["T."],
         some ["Plants"], none⟩).2.2 = SaveResult.appendError) ∧
    ((saveAndNext "u" "t" 3 ⟨"7", "ti", "ab", "Human", "hr", "Original", "tr"⟩
        ⟨"Change Classification", "Human", "Change Classification", "Used"⟩
        (some [["PMID"]]) false true
        ⟨0, some "draft", some ["S."], some "d2", some ["T."],
         some ["Plants"], none⟩).1.hnh_reason_text = none) ∧
    ((saveAndNext "u" "t" 3 ⟨"7", "ti", "ab", "Human", "hr", "Original", "tr"⟩
        ⟨"Change Classification", "Human", "Change Classification", "Used"⟩
        (some [["PMID"]]) false true
        ⟨0, some "draft", some ["S."], some "d2", some ["T."],
         some ["Plants"], none⟩).1.hnh_used_sentences = none) ∧
    ((saveAndNext "u" "t" 3 ⟨"7", "ti", "ab", "Human", "hr", "Original", "tr"⟩
        ⟨"Change Classification", "Human", "Change Classification", "Used"⟩
        (some [["PMID"]]) false true
        ⟨0, some "draft", some ["S."], some "d2", some ["T."],
         some ["Plants"], none⟩).1.current_record_index = 1) := by decide

/-- Claim C3 as amended: the Save and Next handler clears all per-axis drafts,
used-sentence sets and the subcategory selection and advances the clamped
cursor unconditionally after the persistence call, whether that call succeeded
or failed with a caught warning. -/
theorem C3_save_always_clears (user ts : String) (total : Nat) (r : Record)
    (w : WidgetState) (store : Option Sheet) (rf af : Bool)
    (s : SessionState) :
    (saveAndNext user ts total r w store rf af s).1.hnh_reason_text = none ∧
    (saveAndNext user ts total r w store rf af s).1.hnh_used_sentences = none ∧
    (saveAndNext user ts total r w store rf af s).1.type_reason_text = none ∧
    (saveAndNext user ts total r w store rf af s).1.type_used_sentences = none ∧
    (saveAndNext user ts total r w store rf af s).1.non_human_subcategories
      = none ∧
    (saveAndNext user ts total r w store rf af s).1.current_record_index
      = (if (total : Int) ≤ s.current_record_index + 1
         then (if 0 < total then (total : Int) - 1 else 0)
         else s.current_record_index + 1) := by
  refine ⟨rfl, rfl, rfl, rfl, rfl, ?_⟩
  have h : (saveAndNext user ts total r w store rf af s).1.current_record_index
      = (if (total : Int) ≤
            (typeSection w (hnhSection w s)).current_record_index + 1
         then (if 0 < total then (total : Int) - 1 else 0)
         else (typeSection w (hnhSection w s)).current_record_index + 1) := rfl
  rw [h, sections_index]

/-- A record carrying only a PMID, used to instantiate the progress tracker. -/
def recOf (p : String) : Record := ⟨p, "", "", "", "", "", ""⟩

/-- Claim C6 counterexample: with a one-record dataset and a ledger holding a
judged id outside the dataset, the completed metric counts the full ledger set
rather than its intersection with the dataset, and remaining goes negative, so
the claim is false at this input. -/
theorem C6_counterexample :
    (progressCounts [recOf "1"] (some [["PMID"], ["1"], ["2"]])).2.1 = 2 ∧
    completed_spec [recOf "1"] (some [["PMID"], ["1"], ["2"]]) = 1 ∧
    (progressCounts [recOf "1"] (some [["PMID"], ["1"], ["2"]])).2.2 = -1 := by
  decide

/-- Claim C6 as amended: the progress tracker reports total equal to the
dataset size, completed equal to the cardinality of the full ledger record-id
set without intersecting it with the dataset, and remaining equal to total
minus completed as integers; the completed metric agrees with the claimed
intersection exactly when every ledger id occurs in the dataset. -/
theorem C6_progress_counts (dataset : List Record) (rr : Option Sheet) :
    progressCounts dataset rr
      = (dataset.length, (get_validated_pmids rr).card,
         (dataset.length : Int) - ((get_validated_pmids rr).card : Int)) ∧
    (get_validated_pmids rr ⊆ (dataset.map Record.pmid).toFinset →
      (progressCounts dataset rr).2.1 = completed_spec dataset rr) := by
  refine ⟨rfl, fun h => ?_⟩
  show (get_validated_pmids rr).card
      = (get_validated_pmids rr ∩ (dataset.map Record.pmid).toFinset).card
  rw [Finset.inter_eq_left.mpr h]

theorem C6_progress_counts_witness :
    get_validated_pmids (some [["PMID"], ["1"], ["2"], ["3"]])
      ⊆ (([recOf "1", recOf "2", recOf "3", recOf "4", recOf "5", recOf "6",
           recOf "7", recOf "8", recOf "9", recOf "10"]).map
          Record.pmid).toFinset ∧
    (progressCounts
        [recOf "1", recOf "2", recOf "3", recOf "4", recOf "5", recOf "6",
         recOf "7", recOf "8", recOf "9", recOf "10"]
        (some [["PMID"], ["1"], ["2"], ["3"]])).2.1
      = completed_spec
          [recOf "1", recOf "2", recOf "3", recOf "4", recOf "5", recOf "6",
           recOf "7", recOf "8", recOf "9", recOf "10"]
          (some [["PMID"], ["1"], ["2"], ["3"]]) ∧
    (progressCounts
        [recOf "1", recOf "2", recOf "3", recOf "4", recOf "5", recOf "6",
         recOf "7", recOf "8", recOf "9", recOf "10"]
        (some [["PMID"], ["1"], ["2"], ["3"]])).2.2 = 7 :=
  ⟨by decide,
   (C6_progress_counts
      [recOf "1", recOf "2", recOf "3", recOf "4", recOf "5", recOf "6",
       recOf "7", recOf "8", recOf "9", recOf "10"]
      (some [["PMID"], ["1"], ["2"], ["3"]])).2 (by decide),
   by decide⟩

/-- Claim C8 counterexample: with an existing ledger whose header lacks the
PMID column and a pending judgment whose id appears nowhere, the save does not
append under empty membership but aborts with a creation error and leaves the
ledger unchanged, so the claim that the save still completes the append is
false at this input. -/
theorem C8_counterexample :
    add_new_worksheet_and_write (some [["Identifier"], ["1"]]) false false
        ⟨["PMID"], [("2", ["2"])]⟩
      = (some [["Identifier"], ["1"]], SaveResult.creationError) := by decide

/-- Claim C8 as amended: a ledger that exists but lacks the PMID identity
column is treated as non-existent, routing the save to the worksheet creation
path; because the worksheet name is already taken, creation fails and the save
aborts with a creation error, appending nothing and never consulting
membership. -/
theorem C8_malformed_ledger (header : Row) (rows : List Row) (batch : Batch)
    (af : Bool) (h : "PMID" ∉ header) :
    add_new_worksheet_and_write (some (header :: rows)) false af batch
      = (some (header :: rows), SaveResult.creationError) := by
  simp only [add_new_worksheet_and_write]
  rw [if_neg h]
  rfl

theorem C8_malformed_ledger_witness :
    ("PMID" ∉ (["Identifier", "Title"] : Row)) ∧
    add_new_worksheet_and_write (some [["Identifier", "Title"], ["1", "x"]])
        false false ⟨["PMID"], [("7", ["7"])]⟩
      = (some [["Identifier", "Title"], ["1", "x"]],
         SaveResult.creationError) :=
  ⟨by decide,
   C8_malformed_ledger ["Identifier", "Title"] [["1", "x"]]
     ⟨["PMID"], [("7", ["7"])]⟩ false (by decide)⟩

/-- Claim C1: when the ledger already contains a row for the pending record
id, the save appends zero rows, reports the no-op notice and leaves the ledger
unchanged; every retried save is likewise a no-op, so the ledger keeps at most
one judgment row for that record id after any number of retries. -/
theorem C1_idempotent_append (header : Row) (rows : List Row) (cols r : Row)
    (p : String) (hP : "PMID" ∈ header)
    (hmem : p ∈ existingPmids header rows)
    (hcnt : countPmid (header :: rows) p ≤ 1) :
    add_new_worksheet_and_write (some (header :: rows)) false false
        ⟨cols, [(p, r)]⟩
      = (some (header :: rows), SaveResult.noNew) ∧
    (∀ n, iterateSave ⟨cols, [(p, r)]⟩ n (some (header :: rows))
        = some (header :: rows)) ∧
    ∀ n v, iterateSave ⟨cols, [(p, r)]⟩ n (some (header :: rows)) = some v →
      countPmid v p ≤ 1 := by
  have h1 : add_new_worksheet_and_write (some (header :: rows)) false false
      ⟨cols, [(p, r)]⟩ = (some (header :: rows), SaveResult.noNew) := by
    simp only [add_new_worksheet_and_write]
    rw [if_pos hP]
    have hfilter : ([(p, r)].filter
        (fun b => decide (b.1 ∉ existingPmids header rows))) = [] := by
      simp [hmem]
    simp [hfilter, hmem]
  have h2 : ∀ n, iterateSave ⟨cols, [(p, r)]⟩ n (some (header :: rows))
      = some (header :: rows) := by
    intro n
    induction n with
    | zero => rfl
    | succ k ih =>
      unfold iterateSave at ih ⊢
      rw [Function.iterate_succ_apply', ih, h1]
  refine ⟨h1, h2, fun n v hv => ?_⟩
  have he : header :: rows = v := by
    injection (h2 n).symm.trans hv
  rw [← he]
  exact hcnt

theorem C1_idempotent_append_witness :
    ("PMID" ∈ (["PMID"] : Row)) ∧
    ("123" ∈ existingPmids ["PMID"] [["123"]]) ∧
    countPmid [["PMID"], ["123"]] "123" ≤ 1 ∧
    add_new_worksheet_and_write (some [["PMID"], ["123"]]) false false
        ⟨["PMID"], [("123", ["123"])]⟩
      = (some [["PMID"], ["123"]], SaveResult.noNew) ∧
    iterateSave ⟨["PMID"], [("123", ["123"])]⟩ 3 (some [["PMID"], ["123"]])
      = some [["PMID"], ["123"]] := by
  have h := C1_idempotent_append ["PMID"] [["123"]] ["PMID"] ["123"] "123"
    (by decide) (by decide) (by decide)
  exact ⟨by decide, by decide, by decide, h.1, h.2.1 3⟩
